import Mathlib

/-!
# Verification of the CSE140-Website embedded-content loading core

Shallow embedding of the loading / preloading logic of the repository:

* `src/src/pages/Home.tsx` — the `GoogleDocEmbed` component (a two-state
  loading flag driven by the iframe onLoad signal, a conditionally
  rendered skeleton, an always-mounted eager iframe), the `cn` class-name
  utility, and the `useIframePreloader` call site;
* `src/unnamed/part_000` (iframe-skeleton.tsx) — the `IframeSkeleton`
  placeholder component with its default props;
* `src/vite.config.ts` — the deployment base-path computation from the
  environment variables VITE_BASE_PATH and GITHUB_REPOSITORY.

Stateful React code is embedded as explicit state passing: component
state is a structure, event handlers are functions on it, and a render
function maps state to a record of the observable render output.
-/

namespace CSE140

/-! ## IframeSkeleton (src/unnamed/part_000, iframe-skeleton.tsx)

`IframeSkeleton` is a stateless component: props in, markup out. Optional
props model the TS optional fields; `Option.getD` models the JS default
parameter values in the destructuring. -/

/-- Props of `IframeSkeleton`: `height?`, `className?`, `text?`. -/
structure IframeSkeletonProps where
  height : Option String
  className : Option String
  text : Option String
deriving DecidableEq, Repr

/-- Observable render output of `IframeSkeleton`: the inline height
style, the wrapper class string, the loading text, and the spinner. -/
structure IframeSkeletonRender where
  heightStyle : String
  wrapperClass : String
  loadingText : String
  spinnerShown : Bool
deriving DecidableEq, Repr

/-- `IframeSkeleton` from iframe-skeleton.tsx: defaults are
`height = '1200px'`, `className = ''`, `text = 'Loading calendar...'`;
the wrapper class is the template literal `w-full ${className}` and the
supplied text is rendered next to a spinner. -/
def IframeSkeleton (p : IframeSkeletonProps) : IframeSkeletonRender :=
  { heightStyle := p.height.getD "1200px"
    wrapperClass := "w-full " ++ p.className.getD ""
    loadingText := p.text.getD "Loading calendar..."
    spinnerShown := true }

/-! ## GoogleDocEmbed (src/src/pages/Home.tsx)

The component holds a single `useState` flag `isLoading`, initialized to
`true`. The iframe onLoad handler sets it to `false`. The skeleton is
conditionally rendered (`isLoading && ...`), the iframe is always in the
output with `loading="eager"` and opacity `isLoading ? 0 : 1` under a
`opacity 0.3s ease-in-out` transition. -/

/-- Per-instance state of `GoogleDocEmbed`: the single `useState`
loading flag. -/
structure GoogleDocEmbedState where
  isLoading : Bool
deriving DecidableEq, Repr

/-- Initial state: `useState(true)`. -/
def GoogleDocEmbed.initialState : GoogleDocEmbedState := ⟨true⟩

/-- `handleIframeLoad`: the iframe onLoad callback, `setIsLoading(false)`. -/
def handleIframeLoad (_s : GoogleDocEmbedState) : GoogleDocEmbedState := ⟨false⟩

/-- Events delivered to a `GoogleDocEmbed` instance over its lifetime:
the iframe onLoad completion signal (which may fire more than once, e.g.
on an in-frame reload), or a render pass, which does not touch state. -/
inductive GoogleDocEvent
  | iframeLoad
  | rerender
deriving DecidableEq, Repr

/-- One event step of a `GoogleDocEmbed` instance: only the onLoad
signal changes the state, through `handleIframeLoad`. -/
def stepEvent (s : GoogleDocEmbedState) : GoogleDocEvent → GoogleDocEmbedState
  | GoogleDocEvent.iframeLoad => handleIframeLoad s
  | GoogleDocEvent.rerender => s

/-- Run an event sequence from a state. -/
def runEvents (s : GoogleDocEmbedState) (es : List GoogleDocEvent) : GoogleDocEmbedState :=
  es.foldl stepEvent s

/-- The hard-coded document URL of the single descriptor bound to the
`GoogleDocEmbed` view. -/
def GOOGLE_DOC_URL : String :=
  "https://docs.google.com/document/d/1Ppt5T9w8sUsd-aUSZ9rcst4KtCdgOcg6NuV6-tWE814/edit?tab=t.0"

/-- Observable render output of `GoogleDocEmbed`: the conditionally
mounted skeleton (`none` when absent from the output), and the iframe
attributes and inline style. -/
structure GoogleDocRender where
  skeleton : Option IframeSkeletonRender
  iframeMounted : Bool
  iframeOpacity : Nat
  iframeTransition : String
  iframeLoadingAttr : String
  iframeSrc : String
deriving DecidableEq, Repr

/-- The render function of `GoogleDocEmbed`: the skeleton overlay is in
the output exactly when `isLoading` holds (the `isLoading && ...`
conditional render, with height `1200px` and text `Loading Syllabus...`),
and the iframe is always in the output, eager, with opacity
`isLoading ? 0 : 1` and the `opacity 0.3s ease-in-out` transition. -/
def GoogleDocEmbed.render (s : GoogleDocEmbedState) : GoogleDocRender :=
  { skeleton :=
      if s.isLoading then
        some (IframeSkeleton ⟨some "1200px", none, some "Loading Syllabus..."⟩)
      else none
    iframeMounted := true
    iframeOpacity := if s.isLoading then 0 else 1
    iframeTransition := "opacity 0.3s ease-in-out"
    iframeLoadingAttr := "eager"
    iframeSrc := GOOGLE_DOC_URL }

/-- A `GoogleDocEmbed` instance together with its mount status. The
React runtime drops a state update dispatched to an unmounted instance:
the update is ignored and no error is raised. The embedding makes that
dispatch rule explicit, so the onLoad callback firing after teardown can
be examined. -/
structure ComponentInstance where
  mounted : Bool
  state : GoogleDocEmbedState
deriving DecidableEq, Repr

/-- The `setIsLoading` dispatch on an instance: applied only while the
instance is mounted, dropped otherwise (React state-update semantics). -/
def setIsLoading (inst : ComponentInstance) (v : Bool) : ComponentInstance :=
  if inst.mounted then { inst with state := ⟨v⟩ } else inst

/-- `handleIframeLoad` as a dispatch on an instance: `setIsLoading(false)`. -/
def dispatchIframeLoad (inst : ComponentInstance) : ComponentInstance :=
  setIsLoading inst false

/-- Teardown (unmount) of an instance: the pending callbacks may still
fire afterwards. -/
def teardown (inst : ComponentInstance) : ComponentInstance :=
  { inst with mounted := false }

/-- The event the embedding surface delivers when the underlying load
finishes with outcome `underlyingError`: the iframe onLoad signal fires
either way and carries no error information, so the delivered event does
not depend on the outcome. -/
def signalOf (_underlyingError : Bool) : GoogleDocEvent :=
  GoogleDocEvent.iframeLoad

/-! ## The `cn` class-name utility (src/src/pages/Home.tsx)

`cn(...classes) = classes.filter(Boolean).join(' ')` over arguments of
type `string | undefined | null | boolean`. -/

/-- One argument of `cn`: a string, `undefined`, `null`, or a boolean. -/
inductive ClassArg
  | strArg (s : String)
  | undef
  | nullArg
  | boolArg (b : Bool)
deriving DecidableEq, Repr

/-- JS truthiness on the argument type of `cn`: the empty string,
`undefined`, `null` and `false` are falsy; a non-empty string and `true`
are truthy. -/
def ClassArg.truthy : ClassArg → Bool
  | ClassArg.strArg s => !(s == "")
  | ClassArg.undef => false
  | ClassArg.nullArg => false
  | ClassArg.boolArg b => b

/-- The string conversion `Array.prototype.join` applies to an entry:
a string is itself, a boolean stringifies to `true` / `false`, and
`undefined` / `null` stringify to the empty string. -/
def ClassArg.toJs : ClassArg → String
  | ClassArg.strArg s => s
  | ClassArg.undef => ""
  | ClassArg.nullArg => ""
  | ClassArg.boolArg b => if b then "true" else "false"

/-- `Array.prototype.join(' ')`: empty array gives the empty string, a
singleton gives its entry, otherwise entries separated by single spaces. -/
def joinSpace : List String → String
  | [] => ""
  | [a] => a
  | a :: b :: rest => a ++ " " ++ joinSpace (b :: rest)

/-- `cn` from Home.tsx: `classes.filter(Boolean).join(' ')`. -/
def cn (classes : List ClassArg) : String :=
  joinSpace ((classes.filter ClassArg.truthy).map ClassArg.toJs)

/-- The space-separated join of exactly the truthy entries in order,
written directly from the claim wording: each truthy entry contributes
its string, separated by a single space from the next contributing
entry; falsy entries contribute nothing. -/
def joinTruthy : List ClassArg → String
  | [] => ""
  | c :: cs =>
    if c.truthy then
      if (cs.filter ClassArg.truthy).isEmpty then c.toJs
      else c.toJs ++ " " ++ joinTruthy cs
    else joinTruthy cs

/-! ## PreloadCoordinator (useIframePreloader)

Home.tsx invokes `useIframePreloader()` on every mount of the home page;
the hook module `@/hooks/use-iframe-preloader` itself is not among the
provided sources, so the coordinator is modelled from the spec. -/

/-- Kind tag of a preloadable resource (document viewer or 3D scene). -/
inductive ResourceKind
  | document
  | scene
deriving DecidableEq, Repr

/-- Static identity of one embeddable external resource. -/
structure ResourceDescriptor where
  id : String
  sourceUrl : String
  kind : ResourceKind
deriving DecidableEq, Repr

/-- Modelled from the spec: the process-wide state behind
`useIframePreloader` (the hook source `@/hooks/use-iframe-preloader` is
not under the provided sources; only its call site in Home.tsx is).
`registry` is the set of descriptor ids already submitted for background
preloading; `instancesEver` records, one entry per creation event, every
hidden preload instance ever instantiated over the process lifetime. -/
structure PreloadState where
  registry : List String
  instancesEver : List String
deriving DecidableEq, Repr

/-- The registry starts empty at process start. -/
def PreloadState.initial : PreloadState := ⟨[], []⟩

/-- Modelled from the spec: `EnsurePreloaded` for a single descriptor —
if its id is already registered this is a no-op; otherwise the id is
added to the registry and one hidden preload instance is instantiated. -/
def ensurePreloadedOne (s : PreloadState) (d : ResourceDescriptor) : PreloadState :=
  if d.id ∈ s.registry then s
  else { registry := d.id :: s.registry, instancesEver := d.id :: s.instancesEver }

/-- Modelled from the spec: `EnsurePreloaded(descriptors)` processes the
descriptor list in order. -/
def ensurePreloaded (s : PreloadState) (L : List ResourceDescriptor) : PreloadState :=
  L.foldl ensurePreloadedOne s

/-- A whole process lifetime: a sequence of `EnsurePreloaded` calls
(e.g. one per mount of the home page) run from the initial state. -/
def runEnsurePreloaded (calls : List (List ResourceDescriptor)) : PreloadState :=
  calls.foldl ensurePreloaded PreloadState.initial

/-- The ids of a descriptor list. -/
def descIds (L : List ResourceDescriptor) : List String :=
  L.map ResourceDescriptor.id

/-- Registry well-formedness: the instances ever created are duplicate
free and are exactly the registered ids. -/
def GoodPreload (s : PreloadState) : Prop :=
  s.instancesEver.Nodup ∧ ∀ i, i ∈ s.instancesEver ↔ i ∈ s.registry

/-! ## Deployment base path (src/vite.config.ts)

`base` is `process.env.VITE_BASE_PATH` when truthy; otherwise, when
`process.env.GITHUB_REPOSITORY` is truthy, `/` + `split('/')[1]` + `/`;
otherwise `/`. Finally `/` is appended unless `base` is `/` or already
ends with `/`. Environment variables are `Option String` (`none` =
unset); JS string falsiness means unset or empty. -/

/-- JS truthiness of an environment variable: unset (`undefined`) and
the empty string are falsy. -/
def truthyEnv : Option String → Bool
  | none => false
  | some s => !(s == "")

/-- `String.prototype.split` on the one-character separator `/`, over
the character list: splitting the empty string gives one empty field,
and each separator character opens a new field. -/
def splitCharsOnSlash : List Char → List (List Char)
  | [] => [[]]
  | c :: cs =>
    match splitCharsOnSlash cs with
    | [] => if c = '/' then [[], []] else [[c]]
    | h :: t => if c = '/' then [] :: h :: t else (c :: h) :: t

/-- `s.split('/')` as a list of strings. -/
def jsSplitSlash (s : String) : List String :=
  (splitCharsOnSlash s.data).map (fun l => String.mk l)

/-- `s.split('/')[1]` interpolated into a template literal: the second
field when it exists, otherwise the JS stringification `undefined` of
the out-of-range index. -/
def splitGet1 (s : String) : String :=
  match (jsSplitSlash s).get? 1 with
  | some r => r
  | none => "undefined"

/-- `s.endsWith(suffix)` over the character lists. -/
def jsEndsWith (s suffix : String) : Bool :=
  suffix.data.IsSuffix s.data

/-- The base-path computation of vite.config.ts: VITE_BASE_PATH when
truthy; else `/` + `GITHUB_REPOSITORY.split('/')[1]` + `/` when
GITHUB_REPOSITORY is truthy; else `/`; then `/` appended when the result
is neither `/` nor already ending in `/` (the nested conditionals mirror
the short-circuit conjunction of the source). -/
def computeBase (vbp ghr : Option String) : String :=
  let base :=
    if truthyEnv vbp then vbp.getD ""
    else if truthyEnv ghr then "/" ++ splitGet1 (ghr.getD "") ++ "/"
    else "/"
  if base = "/" then base
  else if jsEndsWith base "/" then base
  else base ++ "/"

/-- The amended base-path specification, written from the amended claim
wording: when VITE_BASE_PATH is set to a non-empty value, it is that
value with `/` appended when missing; when only GITHUB_REPOSITORY is set
to a non-empty value, it is `/` + the second `/`-separated field of
GITHUB_REPOSITORY (the literal string `undefined` when there is no
second field) + `/`; otherwise `/`. -/
def amendedBase (vbp ghr : Option String) : String :=
  if truthyEnv vbp then
    let b := vbp.getD ""
    if jsEndsWith b "/" then b else b ++ "/"
  else if truthyEnv ghr then "/" ++ splitGet1 (ghr.getD "") ++ "/"
  else "/"

/-! ## Helper lemmas -/

/-- Once the loading flag is down, no event raises it again. -/
theorem stepEvent_isLoading_false (s : GoogleDocEmbedState) (e : GoogleDocEvent)
    (h : s.isLoading = false) : (stepEvent s e).isLoading = false := by
  cases e
  · rfl
  · exact h

/-- `false` is absorbing for `isLoading` across any event sequence. -/
theorem runEvents_isLoading_false (es : List GoogleDocEvent) :
    ∀ s : GoogleDocEmbedState, s.isLoading = false → (runEvents s es).isLoading = false := by
  induction es with
  | nil => intro s h; simpa [runEvents] using h
  | cons e es ih =>
    intro s h
    simpa [runEvents] using ih (stepEvent s e) (stepEvent_isLoading_false s e h)

/-- Render passes alone never change the state. -/
theorem runEvents_rerender (n : Nat) (s : GoogleDocEmbedState) :
    runEvents s (List.replicate n GoogleDocEvent.rerender) = s := by
  induction n generalizing s with
  | zero => rfl
  | succ n ih =>
    simp only [List.replicate_succ, runEvents, List.foldl_cons]
    simpa [runEvents, stepEvent] using ih s

/-- The skeleton is in the render output exactly while `isLoading` holds. -/
theorem render_skeleton_isSome (s : GoogleDocEmbedState) :
    (GoogleDocEmbed.render s).skeleton.isSome = s.isLoading := by
  cases s with
  | mk b => cases b <;> rfl

/-- `joinSpace` on a cons: the head alone when the tail is empty,
otherwise the head, a space, and the join of the tail. -/
theorem joinSpace_cons (a : String) (l : List String) :
    joinSpace (a :: l) = if l.isEmpty then a else a ++ " " ++ joinSpace l := by
  cases l <;> rfl

/-- `cn` computes the space-separated join of exactly the truthy
entries in order. -/
theorem cn_eq_joinTruthy (cs : List ClassArg) : cn cs = joinTruthy cs := by
  induction cs with
  | nil => rfl
  | cons c cs ih =>
    cases h : c.truthy
    · simpa [cn, joinTruthy, List.filter_cons, h] using ih
    · have hmap : ((cs.filter ClassArg.truthy).map ClassArg.toJs).isEmpty
          = (cs.filter ClassArg.truthy).isEmpty := by
        cases cs.filter ClassArg.truthy <;> rfl
      simp only [cn, List.filter_cons, h, if_true, List.map_cons, joinSpace_cons, hmap,
        joinTruthy]
      by_cases he : (cs.filter ClassArg.truthy).isEmpty
      · simp [he]
      · simp only [he, if_false]
        have hih : joinSpace ((cs.filter ClassArg.truthy).map ClassArg.toJs)
            = joinTruthy cs := ih
        rw [hih]

/-- One `EnsurePreloaded` step preserves well-formedness, and the
instances ever created grow by exactly the fresh id, if any. -/
theorem ensurePreloadedOne_spec (s : PreloadState) (d : ResourceDescriptor)
    (hs : GoodPreload s) :
    GoodPreload (ensurePreloadedOne s d) ∧
    (∀ i, i ∈ (ensurePreloadedOne s d).instancesEver ↔ i ∈ s.instancesEver ∨ i = d.id) := by
  obtain ⟨hnd, hmem⟩ := hs
  by_cases h : d.id ∈ s.registry
  · unfold ensurePreloadedOne
    rw [if_pos h]
    refine ⟨⟨hnd, hmem⟩, ?_⟩
    intro i
    constructor
    · exact fun hi => Or.inl hi
    · rintro (hi | rfl)
      · exact hi
      · exact (hmem d.id).mpr h
  · unfold ensurePreloadedOne
    rw [if_neg h]
    have hni : d.id ∉ s.instancesEver := fun hi => h ((hmem d.id).mp hi)
    refine ⟨⟨List.nodup_cons.mpr ⟨hni, hnd⟩, ?_⟩, ?_⟩
    · intro i
      simp only [List.mem_cons]
      constructor
      · rintro (rfl | hi)
        · exact Or.inl rfl
        · exact Or.inr ((hmem i).mp hi)
      · rintro (rfl | hi)
        · exact Or.inl rfl
        · exact Or.inr ((hmem i).mpr hi)
    · intro i
      simp only [List.mem_cons]
      tauto

/-- One `EnsurePreloaded` call preserves well-formedness; the instances
ever created afterwards are the previous ones plus the ids of the call. -/
theorem ensurePreloaded_spec (L : List ResourceDescriptor) :
    ∀ s : PreloadState, GoodPreload s →
      GoodPreload (ensurePreloaded s L) ∧
      (∀ i, i ∈ (ensurePreloaded s L).instancesEver ↔
        i ∈ s.instancesEver ∨ i ∈ descIds L) := by
  induction L with
  | nil =>
    intro s hs
    exact ⟨hs, fun i => by simp [ensurePreloaded, descIds]⟩
  | cons d L ih =>
    intro s hs
    obtain ⟨h1, h2⟩ := ensurePreloadedOne_spec s d hs
    obtain ⟨h3, h4⟩ := ih (ensurePreloadedOne s d) h1
    have hfold : ensurePreloaded s (d :: L) = ensurePreloaded (ensurePreloadedOne s d) L := by
      simp [ensurePreloaded]
    refine ⟨hfold ▸ h3, ?_⟩
    intro i
    rw [hfold, h4 i, h2 i]
    simp only [descIds, List.map_cons, List.mem_cons]
    tauto

/-- A whole sequence of `EnsurePreloaded` calls preserves
well-formedness, and the instances ever created are exactly the
previous ones plus the ids of the union of all calls. -/
theorem runCalls_spec (calls : List (List ResourceDescriptor)) :
    ∀ s : PreloadState, GoodPreload s →
      GoodPreload (calls.foldl ensurePreloaded s) ∧
      (∀ i, i ∈ (calls.foldl ensurePreloaded s).instancesEver ↔
        i ∈ s.instancesEver ∨ i ∈ (calls.map descIds).flatten) := by
  induction calls with
  | nil =>
    intro s hs
    exact ⟨hs, fun i => by simp⟩
  | cons L calls ih =>
    intro s hs
    obtain ⟨h1, h2⟩ := ensurePreloaded_spec L s hs
    obtain ⟨h3, h4⟩ := ih (ensurePreloaded s L) h1
    refine ⟨by simpa using h3, ?_⟩
    intro i
    have hstep : i ∈ ((L :: calls).foldl ensurePreloaded s).instancesEver ↔
        (i ∈ s.instancesEver ∨ i ∈ descIds L) ∨ i ∈ (calls.map descIds).flatten := by
      rw [List.foldl_cons, h4 i, h2 i]
    rw [hstep]
    simp only [List.map_cons, List.flatten_cons, List.mem_append]
    tauto

/-- The initial preload state is well formed. -/
theorem goodPreload_initial : GoodPreload PreloadState.initial := by
  refine ⟨List.nodup_nil, ?_⟩
  intro i
  simp [PreloadState.initial]

/-- A string with `/` appended ends with `/`. -/
theorem jsEndsWith_append_slash (s : String) : jsEndsWith (s ++ "/") "/" = true := by
  simp only [jsEndsWith, decide_eq_true_eq]
  rw [String.data_append]
  exact List.suffix_append _ _

/-- The amended base always ends with `/`. -/
theorem amendedBase_endsWith (vbp ghr : Option String) :
    jsEndsWith (amendedBase vbp ghr) "/" = true := by
  unfold amendedBase
  by_cases h1 : truthyEnv vbp = true
  · simp only [h1, if_true]
    by_cases h3 : jsEndsWith (vbp.getD "") "/" = true
    · simp [h3]
    · simp only [h3, if_false, Bool.false_eq_true]
      exact jsEndsWith_append_slash _
  · simp only [h1, if_false, Bool.false_eq_true]
    by_cases h2 : truthyEnv ghr = true
    · simp only [h2, if_true]
      exact jsEndsWith_append_slash ("/" ++ splitGet1 (ghr.getD ""))
    · simp only [h2, if_false, Bool.false_eq_true]
      decide

/-- The computed base equals the amended specification. -/
theorem computeBase_eq_amendedBase (vbp ghr : Option String) :
    computeBase vbp ghr = amendedBase vbp ghr := by
  unfold computeBase amendedBase
  by_cases h1 : truthyEnv vbp = true
  · simp only [h1, if_true]
    by_cases h2 : vbp.getD "" = "/"
    · have hj : jsEndsWith "/" "/" = true := by decide
      simp [h2, hj]
    · by_cases h3 : jsEndsWith (vbp.getD "") "/" = true
      · simp [h2, h3]
      · simp [h2, h3]
  · simp only [h1, if_false, Bool.false_eq_true]
    by_cases h2 : truthyEnv ghr = true
    · simp only [h2, if_true]
      have he : jsEndsWith ("/" ++ splitGet1 (ghr.getD "") ++ "/") "/" = true :=
        jsEndsWith_append_slash ("/" ++ splitGet1 (ghr.getD ""))
      by_cases h3 : ("/" ++ splitGet1 (ghr.getD "") ++ "/") = "/"
      · simp [h3]
      · simp [h3, he]
    · simp [h2]

/-! ## Claim theorems -/

/-- C1: the Loading-to-Loaded transition of `GoogleDocEmbed` is one-way
and idempotent: along any event history in which the onLoad completion
signal has fired, `isLoading` is `false` and the skeleton is out of the
render output for the remainder of the instance lifetime, however many
times the signal fires again; and no event step takes a loaded state
back to loading. -/
theorem c1_loading_to_loaded_one_way :
    (∀ pre post : List GoogleDocEvent,
      (runEvents GoogleDocEmbed.initialState
        (pre ++ GoogleDocEvent.iframeLoad :: post)).isLoading = false ∧
      (GoogleDocEmbed.render (runEvents GoogleDocEmbed.initialState
        (pre ++ GoogleDocEvent.iframeLoad :: post))).skeleton = none) ∧
    (∀ (s : GoogleDocEmbedState) (e : GoogleDocEvent),
      s.isLoading = false → (stepEvent s e).isLoading = false) := by
  constructor
  · intro pre post
    have hsplit : runEvents GoogleDocEmbed.initialState
        (pre ++ GoogleDocEvent.iframeLoad :: post)
        = runEvents (stepEvent (runEvents GoogleDocEmbed.initialState pre)
            GoogleDocEvent.iframeLoad) post := by
      simp [runEvents, List.foldl_append]
    have hload : (runEvents GoogleDocEmbed.initialState
        (pre ++ GoogleDocEvent.iframeLoad :: post)).isLoading = false := by
      rw [hsplit]
      exact runEvents_isLoading_false post _ rfl
    exact ⟨hload, by simp [GoogleDocEmbed.render, hload]⟩
  · exact stepEvent_isLoading_false

/-- Witness for C1 at a concrete event history. -/
theorem c1_witness :
    (runEvents GoogleDocEmbed.initialState
      ([GoogleDocEvent.rerender] ++ GoogleDocEvent.iframeLoad ::
        [GoogleDocEvent.iframeLoad, GoogleDocEvent.rerender])).isLoading = false ∧
    (stepEvent ⟨false⟩ GoogleDocEvent.rerender).isLoading = false :=
  ⟨(c1_loading_to_loaded_one_way.1 [GoogleDocEvent.rerender]
      [GoogleDocEvent.iframeLoad, GoogleDocEvent.rerender]).1,
    c1_loading_to_loaded_one_way.2 ⟨false⟩ GoogleDocEvent.rerender rfl⟩

/-- C2: immediately after the initial render the placeholder is in the
output and shows its loading text, while the iframe is already mounted
with opacity 0; after the completion signal fires, the placeholder is
gone and the iframe has opacity 1. -/
theorem c2_placeholder_then_content :
    (GoogleDocEmbed.render GoogleDocEmbed.initialState).skeleton.isSome = true ∧
    ((GoogleDocEmbed.render GoogleDocEmbed.initialState).skeleton.map
      IframeSkeletonRender.loadingText) = some "Loading Syllabus..." ∧
    (GoogleDocEmbed.render GoogleDocEmbed.initialState).iframeMounted = true ∧
    (GoogleDocEmbed.render GoogleDocEmbed.initialState).iframeOpacity = 0 ∧
    (GoogleDocEmbed.render (handleIframeLoad GoogleDocEmbed.initialState)).skeleton = none ∧
    (GoogleDocEmbed.render (handleIframeLoad GoogleDocEmbed.initialState)).iframeOpacity = 1 := by
  refine ⟨rfl, rfl, rfl, rfl, rfl, rfl⟩

/-- C3 counterexample: the claim asserts the placeholder stays mounted
in the render output after the transition, hidden only by an
opacity/visibility change; in the code the skeleton is conditionally
rendered, so after `handleIframeLoad` it is absent from the output. -/
theorem c3_counterexample :
    (GoogleDocEmbed.render (handleIframeLoad GoogleDocEmbed.initialState)).skeleton = none ∧
    ¬ ((GoogleDocEmbed.render
        (handleIframeLoad GoogleDocEmbed.initialState)).skeleton.isSome = true) := by
  decide

/-- C3 amended: when the transition fires the placeholder is removed
from the render output (conditional render, unmounted), and the content
surface is revealed with the `opacity 0.3s ease-in-out` cross-fade
(300ms), which is present on the iframe in every state. -/
theorem c3_amended_unmount_and_crossfade :
    (GoogleDocEmbed.render (handleIframeLoad GoogleDocEmbed.initialState)).skeleton = none ∧
    (GoogleDocEmbed.render (handleIframeLoad GoogleDocEmbed.initialState)).iframeOpacity = 1 ∧
    (∀ s : GoogleDocEmbedState,
      (GoogleDocEmbed.render s).iframeTransition = "opacity 0.3s ease-in-out") :=
  ⟨rfl, rfl, fun _ => rfl⟩

/-- C4: in every state the iframe is present in the render output with
the eager loading attribute; its mounting is never deferred. -/
theorem c4_iframe_always_mounted :
    ∀ s : GoogleDocEmbedState,
      (GoogleDocEmbed.render s).iframeMounted = true ∧
      (GoogleDocEmbed.render s).iframeLoadingAttr = "eager" :=
  fun _ => ⟨rfl, rfl⟩

/-- C5: across any sequence of `EnsurePreloaded` calls, each id in the
union of the calls has exactly one hidden preload instance ever created
over the process lifetime, and each id outside the union has zero. -/
theorem c5_preload_once_per_id :
    ∀ (calls : List (List ResourceDescriptor)) (i : String),
      (runEnsurePreloaded calls).instancesEver.count i =
        if i ∈ (calls.map descIds).flatten then 1 else 0 := by
  intro calls i
  unfold runEnsurePreloaded
  obtain ⟨⟨hnd, _⟩, hmem⟩ := runCalls_spec calls PreloadState.initial goodPreload_initial
  by_cases h : i ∈ (calls.map descIds).flatten
  · rw [if_pos h]
    refine List.count_eq_one_of_mem hnd ?_
    rw [hmem i]
    exact Or.inr h
  · rw [if_neg h]
    refine List.count_eq_zero.mpr ?_
    intro hc
    rcases (hmem i).mp hc with hi | hi
    · simp [PreloadState.initial] at hi
    · exact h hi

/-- C6: the onLoad callback firing on a torn-down instance is a safe
no-op: the dispatch leaves the instance entirely unchanged (in
particular its state), and, being a total function, raises no error. -/
theorem c6_teardown_safe :
    ∀ inst : ComponentInstance,
      dispatchIframeLoad (teardown inst) = teardown inst ∧
      (dispatchIframeLoad (teardown inst)).state = inst.state := by
  intro inst
  constructor
  · simp [dispatchIframeLoad, setIsLoading, teardown]
  · simp [dispatchIframeLoad, setIsLoading, teardown]

/-- C7: the core consumes no error or timeout signal: the delivered
completion event does not depend on whether the underlying load errored
(so an erroring load fires the same Loading-to-Loaded transition as a
success), a load that never completes leaves the placeholder in the
output after any number of render passes, and there is no path back to
the loading state (no retry, no user-visible error state). -/
theorem c7_no_error_or_timeout_channel :
    (∀ (e1 e2 : Bool) (s : GoogleDocEmbedState),
      stepEvent s (signalOf e1) = stepEvent s (signalOf e2)) ∧
    (∀ (err : Bool) (s : GoogleDocEmbedState),
      (stepEvent s (signalOf err)).isLoading = false) ∧
    (∀ n : Nat,
      (GoogleDocEmbed.render (runEvents GoogleDocEmbed.initialState
        (List.replicate n GoogleDocEvent.rerender))).skeleton.isSome = true) ∧
    (∀ (s : GoogleDocEmbedState) (e : GoogleDocEvent),
      s.isLoading = false → (stepEvent s e).isLoading = false) := by
  refine ⟨fun _ _ _ => rfl, fun _ _ => rfl, ?_, ?_⟩
  · intro n
    rw [runEvents_rerender n GoogleDocEmbed.initialState]
    rfl
  · intro s e h
    exact stepEvent_isLoading_false s e h

/-- Witness for C7 at a concrete loaded state and event. -/
theorem c7_witness :
    (stepEvent ⟨false⟩ GoogleDocEvent.iframeLoad).isLoading = false :=
  c7_no_error_or_timeout_channel.2.2.2 ⟨false⟩ GoogleDocEvent.iframeLoad rfl

/-- C8 counterexample: the claim says the base is derived from the part
of GITHUB_REPOSITORY after the first `/`, and that a set VITE_BASE_PATH
is used; on `a/b/c` the code yields `/b/` (the second field), not
`/b/c/`, and a VITE_BASE_PATH set to the empty string is falsy, so with
GITHUB_REPOSITORY `user/repo` the code yields `/repo/`, not `/`. -/
theorem c8_counterexample :
    computeBase none (some "a/b/c") ≠ "/b/c/" ∧
    computeBase (some "") (some "user/repo") ≠ "/" := by
  decide

/-- C8 amended: for every combination of the two environment inputs the
computed base equals the amended specification — VITE_BASE_PATH with `/`
appended when missing, when set to a non-empty value; else `/` + the
second `/`-separated field of GITHUB_REPOSITORY (the literal string
`undefined` when there is no second field) + `/`, when that is set to a
non-empty value; else `/` — and the result always ends with `/`. -/
theorem c8_base_path_amended :
    ∀ vbp ghr : Option String,
      computeBase vbp ghr = amendedBase vbp ghr ∧
      jsEndsWith (computeBase vbp ghr) "/" = true := by
  intro vbp ghr
  have h := computeBase_eq_amendedBase vbp ghr
  exact ⟨h, h ▸ amendedBase_endsWith vbp ghr⟩

/-- C9: `cn` returns the space-separated join of exactly the truthy
entries in order; a falsy head (`undefined`, `null`, `false`, or the
empty string) is dropped, and an all-falsy or empty argument list gives
the empty string. -/
theorem c9_cn_truthy_join :
    (∀ cs : List ClassArg, cn cs = joinTruthy cs) ∧
    (∀ (c : ClassArg) (cs : List ClassArg),
      c.truthy = false → cn (c :: cs) = cn cs) ∧
    (∀ cs : List ClassArg, (∀ c ∈ cs, c.truthy = false) → cn cs = "") := by
  refine ⟨cn_eq_joinTruthy, ?_, ?_⟩
  · intro c cs h
    simp [cn, List.filter_cons, h]
  · intro cs h
    have hnil : cs.filter ClassArg.truthy = [] := by
      rw [List.filter_eq_nil_iff]
      intro c hc
      simp [h c hc]
    simp [cn, hnil, joinSpace]

/-- Witness for C9 at concrete argument lists. -/
theorem c9_witness :
    cn [ClassArg.undef, ClassArg.strArg "a"] = cn [ClassArg.strArg "a"] ∧
    cn [ClassArg.nullArg, ClassArg.boolArg false, ClassArg.strArg ""] = "" :=
  ⟨c9_cn_truthy_join.2.1 ClassArg.undef [ClassArg.strArg "a"] rfl,
    c9_cn_truthy_join.2.2 [ClassArg.nullArg, ClassArg.boolArg false, ClassArg.strArg ""]
      (by decide)⟩

/-- C10: `IframeSkeleton` renders the supplied loading text and height,
defaults to `Loading calendar...` and `1200px` when they are omitted,
and renders (spinner shown) for every combination of its optional
props. -/
theorem c10_skeleton_props :
    ∀ p : IframeSkeletonProps,
      (∀ t, p.text = some t → (IframeSkeleton p).loadingText = t) ∧
      (p.text = none → (IframeSkeleton p).loadingText = "Loading calendar...") ∧
      (∀ h, p.height = some h → (IframeSkeleton p).heightStyle = h) ∧
      (p.height = none → (IframeSkeleton p).heightStyle = "1200px") ∧
      (IframeSkeleton p).spinnerShown = true := by
  intro p
  refine ⟨?_, ?_, ?_, ?_, rfl⟩
  · intro t ht
    simp [IframeSkeleton, ht]
  · intro ht
    simp [IframeSkeleton, ht]
  · intro h hh
    simp [IframeSkeleton, hh]
  · intro hh
    simp [IframeSkeleton, hh]

/-- Witness for C10 at concrete prop records. -/
theorem c10_witness :
    (IframeSkeleton ⟨some "800px", none, some "Loading Syllabus..."⟩).loadingText
      = "Loading Syllabus..." ∧
    (IframeSkeleton ⟨none, none, none⟩).loadingText = "Loading calendar..." ∧
    (IframeSkeleton ⟨none, none, none⟩).heightStyle = "1200px" ∧
    (IframeSkeleton ⟨some "800px", none, some "Loading Syllabus..."⟩).heightStyle = "800px" :=
  ⟨(c10_skeleton_props ⟨some "800px", none, some "Loading Syllabus..."⟩).1
      "Loading Syllabus..." rfl,
    (c10_skeleton_props ⟨none, none, none⟩).2.1 rfl,
    (c10_skeleton_props ⟨none, none, none⟩).2.2.2.1 rfl,
    (c10_skeleton_props ⟨some "800px", none, some "Loading Syllabus..."⟩).2.2.1 "800px" rfl⟩

end CSE140
